import Mathlib

/-!
Verification development for the telesense pipeline.

Shallow embedding of the two components:
  - Telesense_analysis.py : loader-fed report functions over an in-memory table
    (get_jobs_run_summary, get_top_modules_used, get_cluster_compliance_summary);
  - Telesense_data.py : warehouse fetch (fetch_data_from_redshift) and the
    snapshot-writing main loop.

Modelling conventions:
  - Cell values are the inductive `Value`; a pandas DataFrame is a `Table`
    (column list plus rows, each row an association list of column to value).
    A key absent from a row reads as NaN, as in a DataFrame built from records.
  - Timestamps are integer epoch seconds; pd.to_datetime with errors="coerce"
    is modelled as succeeding exactly on integer values (`Value.parseTimestamp?`).
    One day is 86400 seconds.
  - Dates used as sort keys (job_created_date) are ISO date strings, compared
    lexicographically, which matches chronological order for such strings;
    non-string date cells collapse to the empty string.
  - Python str() / astype(str) is modelled by `Value.pyStr` (None renders as
    "None", missing values as "nan", booleans as "True"/"False").
  - A report function that can raise a Python exception is embedded with
    result type `Except String String`: `Except.error` marks a raised
    exception (for example a pandas KeyError), `Except.ok` a returned string.
  - Markdown table rendering (`toMarkdown`) reproduces the cell text and pipe
    layout of DataFrame.to_markdown but not its column-width padding; no
    theorem below depends on the padding. Likewise `serializeSnapshot` renders
    the snapshot JSON without reproducing json.dump whitespace; theorems about
    the extractor only concern whether a write happens at all.
  - Percentage formatting f"x:.2%" is modelled by `pct2` with exact rational
    arithmetic and round-half-to-even.
-/

namespace Telesense

/-- Cell values as they occur in a loaded snapshot: JSON strings, integers,
booleans, nulls (Python None), and missing values (pandas NaN). -/
inductive Value where
  | vStr (s : String)
  | vInt (n : Int)
  | vBool (b : Bool)
  | vNull
  | vNaN
deriving DecidableEq, Repr

/-- Python str() of a cell, as used by astype(str) and to_markdown. -/
def Value.pyStr : Value → String
  | .vStr s => s
  | .vInt n => toString n
  | .vBool true => "True"
  | .vBool false => "False"
  | .vNull => "None"
  | .vNaN => "nan"

/-- Digit-string parsing over a character list (the integer fragment of
pd.to_numeric). -/
def digitsToNat (cs : List Char) : Option Nat :=
  if cs.isEmpty then none
  else if cs.all (fun c => c.isDigit) then
    some (cs.foldl (fun a c => a * 10 + (c.toNat - 48)) 0)
  else none

/-- Integer parsing of a string via its character list (an optional leading
minus sign followed by digits). -/
def strToInt? (s : String) : Option Int :=
  match s.data with
  | '-' :: rest => (digitsToNat rest).map (fun n => -(n : Int))
  | cs => (digitsToNat cs).map (fun n => (n : Int))

/-- Ascii lowercasing of a string via its character list (str.lower). -/
def strLower (s : String) : String := ⟨s.data.map Char.toLower⟩

/-- Modelled pd.to_numeric(errors="coerce"): integers and booleans convert,
integer strings parse, everything else coerces to missing (none). -/
def Value.toNumeric? : Value → Option Int
  | .vInt n => some n
  | .vBool b => some (if b then 1 else 0)
  | .vStr s => strToInt? s
  | _ => none

/-- Modelled pd.to_datetime(errors="coerce") over epoch-second integers:
integer cells parse to themselves, all other cells coerce to NaT (none). -/
def Value.parseTimestamp? : Value → Option Int
  | .vInt n => some n
  | _ => none

/-- Numeric reading used when pandas sums a column directly: integers count,
True counts as 1, anything else contributes 0 (NaN is skipped by .sum()). -/
def Value.numOrZero : Value → Int
  | .vInt n => n
  | .vBool true => 1
  | _ => 0

/-- One record of the table: an association list from column name to value. -/
abbrev Row := List (String × Value)

/-- Reading a cell; a column absent from the record reads as NaN, matching a
DataFrame built from a list of records with missing keys. -/
def getCell (r : Row) (c : String) : Value :=
  match r.find? (fun p => p.1 == c) with
  | some p => p.2
  | none => Value.vNaN

/-- Column assignment on one record: overwrite the field if present,
append it otherwise. -/
def setCell (r : Row) (c : String) (v : Value) : Row :=
  if r.any (fun p => p.1 == c) then
    r.map (fun p => if p.1 == c then (c, v) else p)
  else r ++ [(c, v)]

/-- The in-memory table: the DataFrame column list and its rows. -/
structure Table where
  cols : List String
  rows : List Row
deriving DecidableEq, Repr

/-- DataFrame.empty: true when either axis has length zero. -/
def Table.isEmpty (t : Table) : Bool := t.rows.isEmpty || t.cols.isEmpty

/-- df.copy(): the reports operate on a copy of the loaded table. -/
def copyTable (t : Table) : Table := ⟨t.cols, t.rows⟩

/-- Two-digit zero padding for the fractional part of a percentage. -/
def pad2 (n : Nat) : String := if n < 10 then "0" ++ toString n else toString n

/-- Python f-string "{num/den:.2%}" on a nonnegative rational, with exact
arithmetic and round-half-to-even. -/
def pct2 (num den : Nat) : String :=
  let scaled := num * 10000
  let q0 := scaled / den
  let r := scaled % den
  let q : Nat :=
    if den < 2 * r then q0 + 1
    else if 2 * r < den then q0
    else if q0 % 2 = 0 then q0 else q0 + 1
  let ip := q / 100
  let fp := pad2 (q % 100)
  s!"{ip}.{fp}%"

/-- Lexicographic comparison of character lists, the order pandas uses when
sorting a column of strings. -/
def charListLe : List Char → List Char → Bool
  | [], _ => true
  | _ :: _, [] => false
  | c :: cs, d :: ds => if c = d then charListLe cs ds else decide (c < d)

/-- Lexicographic comparison of strings via their character lists. -/
def strLe (a b : String) : Bool := charListLe a.data b.data

/-- Stable insertion of an element into a list sorted by the boolean
comparator le (x is placed before the first y with le x y). -/
def insertSorted {α : Type} (le : α → α → Bool) (x : α) : List α → List α
  | [] => [x]
  | y :: ys => if le x y then x :: y :: ys else y :: insertSorted le x ys

/-- Stable insertion sort by a boolean comparator; models DataFrame
sort_values (whose tie order the spec leaves unspecified). -/
def sortOn {α : Type} (le : α → α → Bool) (l : List α) : List α :=
  l.foldr (insertSorted le) []

/-- Worker for drop_duplicates: keep a row when its key has not been seen. -/
def dedupGo {α β : Type} [DecidableEq β] (key : α → β) (seen : List β) :
    List α → List α
  | [] => []
  | x :: xs =>
    if key x ∈ seen then dedupGo key seen xs
    else x :: dedupGo key (key x :: seen) xs

/-- DataFrame.drop_duplicates(subset=key, keep="first"): one element per
distinct key, keeping the first occurrence. -/
def dedupByKey {α β : Type} [DecidableEq β] (key : α → β) (l : List α) :
    List α :=
  dedupGo key [] l

/-- Markdown rendering of one record over the given columns. -/
def toMarkdownRow (cols : List String) (r : Row) : String :=
  "| " ++ String.intercalate " | " (cols.map (fun c => (getCell r c).pyStr)) ++ " |"

/-- Markdown rendering of a table (DataFrame.to_markdown(index=False),
without the column-width padding). -/
def toMarkdown (cols : List String) (rows : List Row) : String :=
  String.intercalate "\n"
    (("| " ++ String.intercalate " | " cols ++ " |")
      :: ("|" ++ String.intercalate "|" (cols.map (fun _ => "---")) ++ "|")
      :: rows.map (toMarkdownRow cols))

/-! ### Job run summary (Telesense_analysis.py lines 32-72) -/

/-- Window start: end_date - timedelta(days=n_days), in epoch seconds. -/
def jobsWindowStart (nDays now : Int) : Int := now - nDays * 86400

/-- Parse job_created_timestamp per row, drop rows where parsing fails, and
keep rows whose timestamp lies in [now - n_days, now], both ends inclusive
(lines 40-49 of Telesense_analysis.py). -/
def recentJobs (rows : List Row) (nDays now : Int) : List (Row × Int) :=
  (rows.filterMap (fun r =>
      ((getCell r "job_created_timestamp").parseTimestamp?).map (fun ts => (r, ts)))).filter
    (fun p => decide (jobsWindowStart nDays now ≤ p.2) && decide (p.2 ≤ now))

/-- Metric lines plus the sample table of the job run summary report. -/
def renderJobsSummary (nDays : Int) (total successful failed : Nat)
    (hostSum : Int) (sampleCols : List String) (sample : List Row) : String :=
  let l0 := s!"## Job Run Summary (Last {nDays} Days):\n\n"
  let l1 := s!"- Total Jobs Run: {total}\n"
  let l2 := s!"- Successful Jobs: {successful}\n"
  let l3 := s!"- Failed Jobs: {failed}\n"
  let rateLine :=
    if 0 < total then
      let rate := pct2 successful total
      s!"- Success Rate: {rate}\n"
    else ""
  let hostsLine := s!"- Total Hosts Touched by These Jobs: {hostSum}\n\n"
  l0 ++ l1 ++ l2 ++ l3 ++ rateLine ++ hostsLine
    ++ "### Sample Job Data:\n" ++ toMarkdown sampleCols (sample.take 5)

/-- get_jobs_run_summary. The empty-table guard comes first; reading the
job_created_timestamp column (and later the job_status column) raises a
pandas KeyError when the column is absent, modelled as Except.error. -/
def get_jobs_run_summary (t : Table) (nDays now : Int) : Except String String :=
  if t.isEmpty then
    Except.ok "No combined telemetry data available to analyze for jobs."
  else if !(t.cols.contains "job_created_timestamp") then
    Except.error "KeyError: \x27job_created_timestamp\x27"
  else
    let recent := recentJobs t.rows nDays now
    if recent.isEmpty then
      Except.ok s!"No job data found in the last {nDays} days."
    else if !(t.cols.contains "job_status") then
      Except.error "KeyError: \x27job_status\x27"
    else
      let total := recent.length
      let successful :=
        (recent.filter (fun p => getCell p.1 "job_status" == Value.vStr "successful")).length
      let failed :=
        (recent.filter (fun p => getCell p.1 "job_status" == Value.vStr "failed")).length
      let hostSum : Int :=
        if t.cols.contains "job_host_count" then
          (recent.map (fun p => (getCell p.1 "job_host_count").numOrZero)).foldl (· + ·) 0
        else 0
      let sampleCols :=
        (["job_created_date", "job_name", "job_status", "job_elapsed_seconds",
          "job_org_id"]).filter (fun c => t.cols.contains c)
      Except.ok (renderJobsSummary nDays total successful failed hostSum
        sampleCols (recent.map (fun p => p.1)))

/-! ### Top modules report (Telesense_analysis.py lines 74-100) -/

/-- Error string returned when a module-report column is missing (line 84). -/
def moduleMissingMsg : String :=
  "Missing \x27collection_name\x27, \x27module_name\x27, or \x27module_invocation_count\x27 in combined data for module analysis. Check the combined query in get_telesense_data.py."

/-- Lines 86-88: astype(str) on collection_name and module_name, then
pd.to_numeric(errors="coerce").fillna(0) on module_invocation_count. -/
def transformModuleRow (r : Row) : Row :=
  let r1 := setCell r "collection_name" (Value.vStr ((getCell r "collection_name").pyStr))
  let r2 := setCell r1 "module_name" (Value.vStr ((getCell r1 "module_name").pyStr))
  setCell r2 "module_invocation_count"
    (Value.vInt (((getCell r2 "module_invocation_count").toNumeric?).getD 0))

/-- Line 90: after astype(str) the notna() test is vacuous; rows whose
stringified module name is "" or "nan" are dropped. -/
def cleanModules (rows : List Row) : List Row :=
  (rows.map transformModuleRow).filter (fun r =>
    let m := (getCell r "module_name").pyStr
    !(m == "") && !(m == "nan"))

/-- Group key of a cleaned row. -/
def moduleKey (r : Row) : String × String :=
  ((getCell r "collection_name").pyStr, (getCell r "module_name").pyStr)

/-- Lexicographic order on group keys (pandas groupby sorts keys). -/
def keyLe (a b : String × String) : Bool :=
  if a.1 = b.1 then strLe a.2 b.2 else strLe a.1 b.1

/-- Invocation count of a cleaned row (always an integer after transform). -/
def countOf (r : Row) : Int := (getCell r "module_invocation_count").numOrZero

/-- Line 95: groupby(["collection_name","module_name"]) summing the counts,
keys emitted in sorted order. -/
def groupSums (rows : List Row) : List (String × String × Int) :=
  (sortOn keyLe ((rows.map moduleKey).dedup)).map
    (fun k => (k.1, k.2,
      ((rows.filter (fun r => moduleKey r == k)).map countOf).foldl (· + ·) 0))

/-- Descending comparison by summed count. -/
def countDescLe (a b : String × String × Int) : Bool := decide (b.2.2 ≤ a.2.2)

/-- Line 96: sort groups descending by summed count, take the top n. -/
def topModulesList (rows : List Row) (topN : Nat) : List (String × String × Int) :=
  (sortOn countDescLe (groupSums rows)).take topN

/-- The ranked group list the module report renders, as a function of the
loaded table. -/
def topModulesOf (t : Table) (topN : Nat) : List (String × String × Int) :=
  topModulesList (cleanModules t.rows) topN

/-- Rendering of the ranked module table. -/
def renderTopModules (topN : Nat) (groups : List (String × String × Int)) : String :=
  let header := s!"## Top {topN} Ansible Modules Used (Last Year):\n\n"
  header ++ String.intercalate "\n"
    ("| collection_name | module_name | module_invocation_count |"
      :: "|---|---|---|"
      :: groups.map (fun g =>
        let c := g.1
        let m := g.2.1
        let n := g.2.2
        s!"| {c} | {m} | {n} |"))

/-- get_top_modules_used: empty guard, then the three-column guard, cleaning,
the empty-after-cleaning guard, then group-sort-take and rendering. All
column reads are guarded, so every branch returns Except.ok. -/
def get_top_modules_used (t : Table) (topN : Nat) : Except String String :=
  if t.isEmpty then
    Except.ok "No combined telemetry data available to analyze for modules."
  else if !(t.cols.contains "collection_name") || !(t.cols.contains "module_name")
      || !(t.cols.contains "module_invocation_count") then
    Except.ok moduleMissingMsg
  else
    let clean := cleanModules t.rows
    if clean.isEmpty then
      Except.ok "No valid module usage data after cleaning in combined data."
    else
      Except.ok (renderTopModules topN (topModulesList clean topN))

/-! ### Cluster compliance report (Telesense_analysis.py lines 102-136) -/

/-- Error string returned when is_compliant is missing (line 112). -/
def complianceMissingMsg : String :=
  "Missing \x27is_compliant\x27 column in combined data for compliance analysis. Check query in get_telesense_data.py."

/-- Line 114: astype(str).str.lower() on is_compliant. -/
def normalizeComplianceRow (r : Row) : Row :=
  setCell r "is_compliant" (Value.vStr (strLower ((getCell r "is_compliant").pyStr)))

/-- Sort key for job_created_date: ISO date strings compare
lexicographically; non-string cells collapse to the empty string. -/
def dateKey (r : Row) : String :=
  match getCell r "job_created_date" with
  | Value.vStr d => d
  | _ => ""

/-- Descending comparison by job_created_date (line 117). -/
def dateDescLe (a b : Row) : Bool := strLe (dateKey b) (dateKey a)

/-- Deduplication key: the (job_org_id, job_cluster_id) pair (line 118). -/
def clusterKey (r : Row) : List Value :=
  [getCell r "job_org_id", getCell r "job_cluster_id"]

/-- Lines 117-118: sort all rows descending by job_created_date, then keep
the first row of each distinct (job_org_id, job_cluster_id) pair. -/
def complianceDedup (rows : List Row) : List Row :=
  dedupByKey clusterKey (sortOn dateDescLe rows)

/-- The deduplicated cluster rows of the loaded table, after normalizing
is_compliant. -/
def uniqClusters (t : Table) : List Row :=
  complianceDedup (t.rows.map normalizeComplianceRow)

/-- Test for a normalized compliant row. -/
def isTrueRow (r : Row) : Bool := getCell r "is_compliant" == Value.vStr "true"

/-- Test for a normalized non-compliant row. -/
def isFalseRow (r : Row) : Bool := getCell r "is_compliant" == Value.vStr "false"

/-- The three counts of lines 120-122. -/
structure ComplianceStats where
  total : Nat
  compliant : Nat
  nonCompliant : Nat
deriving DecidableEq, Repr

/-- Counts over the deduplicated cluster rows. -/
def complianceStats (t : Table) : ComplianceStats :=
  let uniq := uniqClusters t
  { total := uniq.length
    compliant := (uniq.filter isTrueRow).length
    nonCompliant := (uniq.filter isFalseRow).length }

/-- Rendering of the compliance summary (lines 124-136). -/
def renderComplianceSummary (t : Table) : String :=
  let st := complianceStats t
  let tot := st.total
  let comp := st.compliant
  let non := st.nonCompliant
  let base := "## Cluster Compliance Summary (Last Year):\n\n"
    ++ s!"- Total Unique Clusters Monitored: {tot}\n"
    ++ s!"- Compliant Clusters: {comp}\n"
    ++ s!"- Non-Compliant Clusters: {non}\n"
  let base :=
    if 0 < tot then
      let rate := pct2 comp tot
      base ++ s!"- Compliance Rate: {rate}\n"
    else base
  if 0 < non then
    let sampleCols :=
      (["job_org_id", "job_cluster_id", "tower_version", "cluster_url"]).filter
        (fun c => t.cols.contains c)
    base ++ "\n### Sample Non-Compliant Clusters:\n"
      ++ toMarkdown sampleCols (((uniqClusters t).filter isFalseRow).take 3)
  else base

/-- get_cluster_compliance_summary: the empty and is_compliant guards return
strings; the unguarded sort_values and drop_duplicates column accesses raise
KeyError when job_created_date or the dedup key columns are absent. -/
def get_cluster_compliance_summary (t : Table) : Except String String :=
  if t.isEmpty then
    Except.ok "No combined telemetry data available to analyze for cluster compliance."
  else if !(t.cols.contains "is_compliant") then
    Except.ok complianceMissingMsg
  else if !(t.cols.contains "job_created_date") then
    Except.error "KeyError: \x27job_created_date\x27"
  else if !(t.cols.contains "job_org_id") || !(t.cols.contains "job_cluster_id") then
    Except.error "KeyError: \x27job_org_id\x27 or \x27job_cluster_id\x27"
  else
    Except.ok (renderComplianceSummary t)

/-! ### Reporter call wrappers

The loaded table df_combined_telemetry is the reporter state; each report
copies it (lines 39, 81, 109) and works on the copy, so a call returns its
output together with the unchanged state. -/

/-- A call to get_jobs_run_summary against the loaded table. -/
def run_get_jobs_run_summary (g : Table) (nDays now : Int) :
    Except String String × Table :=
  (get_jobs_run_summary (copyTable g) nDays now, g)

/-- A call to get_top_modules_used against the loaded table. -/
def run_get_top_modules_used (g : Table) (topN : Nat) :
    Except String String × Table :=
  (get_top_modules_used (copyTable g) topN, g)

/-- A call to get_cluster_compliance_summary against the loaded table. -/
def run_get_cluster_compliance_summary (g : Table) :
    Except String String × Table :=
  (get_cluster_compliance_summary (copyTable g), g)

/-! ### Extractor (Telesense_data.py) -/

/-- Outcome of fetch_data_from_redshift: the resulting DataFrame plus
whether a warehouse connection was opened and whether it was closed by the
time the function returned. -/
structure FetchOutcome where
  df : Table
  connOpened : Bool
  connClosed : Bool
deriving Repr

/-- pd.concat of the fetched chunks (ignore_index=True); no chunk gives the
empty DataFrame. -/
def concatChunks : List Table → Table
  | [] => ⟨[], []⟩
  | t :: ts => ⟨t.cols, ((t :: ts).map Table.rows).flatten⟩

/-- fetch_data_from_redshift (lines 117-146). The connection attempt and the
chunked query are its two effectful inputs, each an Except. Every failure is
caught: the function totals to an empty DataFrame rather than propagating,
and the finally block closes the connection whenever one was opened. -/
def fetch_data_from_redshift (connectOutcome : Except String Unit)
    (queryOutcome : Except String (List Table)) : FetchOutcome :=
  match connectOutcome with
  | Except.error _ => { df := ⟨[], []⟩, connOpened := false, connClosed := false }
  | Except.ok _ =>
    match queryOutcome with
    | Except.error _ => { df := ⟨[], []⟩, connOpened := true, connClosed := true }
    | Except.ok chunks =>
      { df := concatChunks chunks, connOpened := true, connClosed := true }

/-- JSON rendering of one value (json.dump with default=str). -/
def jsonOfValue : Value → String
  | Value.vStr s => "\"" ++ s ++ "\""
  | Value.vInt n => toString n
  | Value.vBool true => "true"
  | Value.vBool false => "false"
  | Value.vNull => "null"
  | Value.vNaN => "NaN"

/-- JSON rendering of one record. -/
def jsonOfRow (cols : List String) (r : Row) : String :=
  "\x7b" ++ String.intercalate ", "
    (cols.map (fun c => "\"" ++ c ++ "\": " ++ jsonOfValue (getCell r c)))
    ++ "\x7d"

/-- Dtype string for data_schema, inferred from the column values. -/
def inferDtype (vals : List Value) : String :=
  if !vals.isEmpty && vals.all (fun v => match v with | Value.vInt _ => true | _ => false) then
    "int64"
  else if !vals.isEmpty && vals.all (fun v => match v with | Value.vBool _ => true | _ => false) then
    "bool"
  else "object"

/-- The fixed table key of the one configured query. -/
def tableKeyStr : String := "ansible_all_telemetry_combined_reliable"

/-- The fixed description of the one configured query. -/
def descriptionStr : String :=
  "Comprehensive, denormalized Ansible telemetry data: job execution, cluster, host, modules, Lightspeed, and entitlements."

/-- The structured snapshot document of lines 163-173, rendered to JSON
(whitespace of json.dump indent=2 not reproduced). -/
def serializeSnapshot (tableKey desc : String) (df : Table) : String :=
  "\x7b\"table_name\": \"" ++ tableKey ++ "\", \"description\": \"" ++ desc
    ++ "\", \"data_schema\": \x7b"
    ++ String.intercalate ", "
      (df.cols.map (fun c => "\"" ++ c ++ "\": \""
        ++ inferDtype (df.rows.map (fun r => getCell r c)) ++ "\""))
    ++ "\x7d, \"data_records\": ["
    ++ String.intercalate ", " (df.rows.map (jsonOfRow df.cols))
    ++ "]\x7d"

/-- The per-query body of the extractor main loop (lines 158-178): given the
fetched DataFrame and the current snapshot file content, return the file
content after the run and whether a write was performed. An empty DataFrame
skips the write entirely. -/
def extractorRun (df : Table) (prev : Option String) : Option String × Bool :=
  if df.isEmpty then (prev, false)
  else (some (serializeSnapshot tableKeyStr descriptionStr df), true)

/-! ### Order facts for the comparators -/

/-- charListLe is total. -/
theorem charListLe_total : ∀ as bs : List Char,
    charListLe as bs = true ∨ charListLe bs as = true
  | [], [] => Or.inl rfl
  | [], _ :: _ => Or.inl rfl
  | _ :: _, [] => Or.inr rfl
  | a :: as, b :: bs => by
    simp only [charListLe]
    by_cases h : a = b
    · subst h
      rw [if_pos rfl, if_pos rfl]
      exact charListLe_total as bs
    · rw [if_neg h, if_neg (fun hh => h hh.symm)]
      rcases lt_trichotomy a b with hl | he | hg
      · exact Or.inl (decide_eq_true hl)
      · exact absurd he h
      · exact Or.inr (decide_eq_true hg)

/-- charListLe is transitive. -/
theorem charListLe_trans : ∀ as bs cs : List Char,
    charListLe as bs = true → charListLe bs cs = true → charListLe as cs = true
  | [], _, _, _, _ => rfl
  | _ :: _, [], _, hab, _ => by simp [charListLe] at hab
  | _ :: _, _ :: _, [], _, hbc => by simp [charListLe] at hbc
  | a :: as, b :: bs, c :: cs, hab, hbc => by
    simp only [charListLe] at hab hbc ⊢
    by_cases h1 : a = b
    · subst h1
      rw [if_pos rfl] at hab
      by_cases h2 : a = c
      · subst h2
        rw [if_pos rfl] at hbc ⊢
        exact charListLe_trans as bs cs hab hbc
      · rw [if_neg h2] at hbc ⊢
        exact hbc
    · rw [if_neg h1] at hab
      have hlab : a < b := of_decide_eq_true hab
      by_cases h2 : b = c
      · subst h2
        rw [if_neg h1]
        exact decide_eq_true hlab
      · rw [if_neg h2] at hbc
        have hlbc : b < c := of_decide_eq_true hbc
        have hlac : a < c := lt_trans hlab hlbc
        rw [if_neg (fun he : a = c => absurd (he ▸ hlac) (lt_irrefl a))]
        exact decide_eq_true hlac

/-- strLe is total. -/
theorem strLe_total (a b : String) : strLe a b = true ∨ strLe b a = true :=
  charListLe_total a.data b.data

/-- strLe is transitive. -/
theorem strLe_trans {a b c : String} (h1 : strLe a b = true)
    (h2 : strLe b c = true) : strLe a c = true :=
  charListLe_trans a.data b.data c.data h1 h2

/-- The descending date comparator is total. -/
theorem dateDescLe_total (a b : Row) :
    dateDescLe a b = true ∨ dateDescLe b a = true :=
  strLe_total (dateKey b) (dateKey a)

/-- The descending date comparator is transitive. -/
theorem dateDescLe_trans (a b c : Row) (h1 : dateDescLe a b = true)
    (h2 : dateDescLe b c = true) : dateDescLe a c = true :=
  strLe_trans h2 h1

/-- The descending count comparator is total. -/
theorem countDescLe_total (a b : String × String × Int) :
    countDescLe a b = true ∨ countDescLe b a = true := by
  rcases le_total b.2.2 a.2.2 with h | h
  · exact Or.inl (decide_eq_true h)
  · exact Or.inr (decide_eq_true h)

/-- The descending count comparator is transitive. -/
theorem countDescLe_trans (a b c : String × String × Int)
    (h1 : countDescLe a b = true) (h2 : countDescLe b c = true) :
    countDescLe a c = true :=
  decide_eq_true (le_trans (of_decide_eq_true h2) (of_decide_eq_true h1))

/-! ### Sorting and deduplication facts -/

/-- Inserting an element permutes consing it. -/
theorem insertSorted_perm {α : Type} (le : α → α → Bool) (x : α) :
    ∀ l : List α, List.Perm (insertSorted le x l) (x :: l)
  | [] => List.Perm.refl _
  | y :: ys => by
    simp only [insertSorted]
    split
    · exact List.Perm.refl _
    · exact ((insertSorted_perm le x ys).cons y).trans (List.Perm.swap x y ys)

/-- Sorting is a permutation of the input. -/
theorem sortOn_perm {α : Type} (le : α → α → Bool) :
    ∀ l : List α, List.Perm (sortOn le l) l
  | [] => List.Perm.refl _
  | x :: xs =>
    (insertSorted_perm le x (sortOn le xs)).trans ((sortOn_perm le xs).cons x)

/-- Insertion preserves sortedness for a total transitive comparator. -/
theorem pairwise_insertSorted {α : Type} (le : α → α → Bool)
    (htot : ∀ a b, le a b = true ∨ le b a = true)
    (htrans : ∀ a b c, le a b = true → le b c = true → le a c = true) (x : α) :
    ∀ l : List α, l.Pairwise (fun a b => le a b = true) →
      (insertSorted le x l).Pairwise (fun a b => le a b = true)
  | [], _ => List.Pairwise.cons (by intro y hy; cases hy) List.Pairwise.nil
  | y :: ys, h => by
    have hpw := List.pairwise_cons.mp h
    simp only [insertSorted]
    split
    case isTrue hxy =>
      refine List.Pairwise.cons ?_ h
      intro z hz
      rcases List.mem_cons.mp hz with rfl | hz2
      · exact hxy
      · exact htrans _ _ _ hxy (hpw.1 z hz2)
    case isFalse hxy =>
      have hyx : le y x = true := by
        rcases htot x y with h1 | h1
        · exact absurd h1 hxy
        · exact h1
      refine List.Pairwise.cons ?_ (pairwise_insertSorted le htot htrans x ys hpw.2)
      intro z hz
      have hz2 : z ∈ x :: ys := (insertSorted_perm le x ys).mem_iff.mp hz
      rcases List.mem_cons.mp hz2 with rfl | hz3
      · exact hyx
      · exact hpw.1 z hz3

/-- The sorted output is pairwise ordered for a total transitive comparator. -/
theorem pairwise_sortOn {α : Type} (le : α → α → Bool)
    (htot : ∀ a b, le a b = true ∨ le b a = true)
    (htrans : ∀ a b c, le a b = true → le b c = true → le a c = true) :
    ∀ l : List α, (sortOn le l).Pairwise (fun a b => le a b = true)
  | [] => List.Pairwise.nil
  | x :: xs =>
    pairwise_insertSorted le htot htrans x (sortOn le xs)
      (pairwise_sortOn le htot htrans xs)

/-- Every element the dedup worker keeps comes from the input. -/
theorem dedupGo_subset {α β : Type} [DecidableEq β] (key : α → β) :
    ∀ (seen : List β) (l : List α) (r : α), r ∈ dedupGo key seen l → r ∈ l
  | _, [], _, h => by simp [dedupGo] at h
  | seen, x :: xs, r, h => by
    by_cases hks : key x ∈ seen
    · rw [dedupGo, if_pos hks] at h
      exact List.mem_cons_of_mem x (dedupGo_subset key seen xs r h)
    · rw [dedupGo, if_neg hks] at h
      rcases List.mem_cons.mp h with rfl | h2
      · exact List.mem_cons_self _ _
      · exact List.mem_cons_of_mem x (dedupGo_subset key _ xs r h2)

/-- No kept element has a key from the seen set. -/
theorem dedupGo_key_not_seen {α β : Type} [DecidableEq β] (key : α → β) :
    ∀ (seen : List β) (l : List α) (r : α), r ∈ dedupGo key seen l →
      key r ∉ seen
  | _, [], _, h => by simp [dedupGo] at h
  | seen, x :: xs, r, h => by
    by_cases hks : key x ∈ seen
    · rw [dedupGo, if_pos hks] at h
      exact dedupGo_key_not_seen key seen xs r h
    · rw [dedupGo, if_neg hks] at h
      rcases List.mem_cons.mp h with rfl | h2
      · exact hks
      · intro hc
        exact dedupGo_key_not_seen key _ xs r h2 (List.mem_cons_of_mem _ hc)

/-- On a pairwise-ordered list, the kept representative of a key compares
favourably against every input element with the same key. -/
theorem dedupGo_best {α β : Type} [DecidableEq β] (key : α → β)
    (le : α → α → Bool) (htot : ∀ a b, le a b = true ∨ le b a = true) :
    ∀ (seen : List β) (l : List α),
      l.Pairwise (fun a b => le a b = true) →
      ∀ r r', r ∈ dedupGo key seen l → r' ∈ l → key r = key r' → le r r' = true
  | _, [], _, _, _, _, hr' , _ => by cases hr'
  | seen, x :: xs, h, r, r', hr, hr', hk => by
    have hpw := List.pairwise_cons.mp h
    by_cases hks : key x ∈ seen
    · rw [dedupGo, if_pos hks] at hr
      rcases List.mem_cons.mp hr' with heq | h2
      · have : key r ∈ seen := by rw [hk, heq]; exact hks
        exact absurd this (dedupGo_key_not_seen key seen xs r hr)
      · exact dedupGo_best key le htot seen xs hpw.2 r r' hr h2 hk
    · rw [dedupGo, if_neg hks] at hr
      rcases List.mem_cons.mp hr with heq | h2
      · rcases List.mem_cons.mp hr' with heq2 | h3
        · have : r' = r := heq2.trans heq.symm
          rw [this]
          rcases htot r r with h4 | h4
          · exact h4
          · exact h4
        · rw [heq]
          exact hpw.1 r' h3
      · rcases List.mem_cons.mp hr' with heq2 | h3
        · have : key r ∈ key x :: seen := by
            rw [hk, heq2]
            exact List.mem_cons_self _ _
          exact absurd this (dedupGo_key_not_seen key _ xs r h2)
        · exact dedupGo_best key le htot _ xs hpw.2 r r' h2 h3 hk

/-- The kept representative of each (org, cluster) pair is at least as
recent (by job_created_date, descending comparator) as every row of the
input sharing that pair. -/
theorem complianceDedup_best (rows : List Row) (r r' : Row)
    (hr : r ∈ complianceDedup rows) (hr' : r' ∈ rows)
    (hk : clusterKey r = clusterKey r') : dateDescLe r r' = true := by
  have hsorted := pairwise_sortOn dateDescLe dateDescLe_total dateDescLe_trans rows
  have hr'2 : r' ∈ sortOn dateDescLe rows :=
    (sortOn_perm dateDescLe rows).mem_iff.mpr hr'
  exact dedupGo_best clusterKey dateDescLe dateDescLe_total [] _ hsorted
    r r' hr hr'2 hk

/-! ### Counting facts -/

/-- Two disjoint filters together keep at most every element. -/
theorem length_filter_add_length_filter_le {α : Type} (p q : α → Bool) :
    ∀ l : List α, (∀ x ∈ l, ¬(p x = true ∧ q x = true)) →
      (l.filter p).length + (l.filter q).length ≤ l.length
  | [], _ => le_refl 0
  | x :: xs, h => by
    have hx := h x (List.mem_cons_self _ _)
    have ih := length_filter_add_length_filter_le p q xs
      (fun y hy => h y (List.mem_cons_of_mem _ hy))
    cases hp : p x <;> cases hq : q x
    case false.false =>
      simp [List.filter_cons, hp, hq]
      omega
    case false.true =>
      simp [List.filter_cons, hp, hq]
      omega
    case true.false =>
      simp [List.filter_cons, hp, hq]
      omega
    case true.true => exact absurd ⟨hp, hq⟩ hx

/-- Two disjoint filters keep strictly fewer elements when some element
escapes both. -/
theorem length_filter_add_length_filter_lt {α : Type} (p q : α → Bool) :
    ∀ l : List α, (∀ x ∈ l, ¬(p x = true ∧ q x = true)) →
      (∃ x ∈ l, p x = false ∧ q x = false) →
      (l.filter p).length + (l.filter q).length < l.length
  | [], _, hex => by
    rcases hex with ⟨x, hx, _⟩
    cases hx
  | x :: xs, h, hex => by
    have hrest : ∀ y ∈ xs, ¬(p y = true ∧ q y = true) :=
      fun y hy => h y (List.mem_cons_of_mem _ hy)
    rcases hex with ⟨w, hw, hwp, hwq⟩
    rcases List.mem_cons.mp hw with heq | hw2
    · have hle := length_filter_add_length_filter_le p q xs hrest
      rw [heq] at hwp hwq
      simp [List.filter_cons, hwp, hwq]
      omega
    · have hx := h x (List.mem_cons_self _ _)
      have ih := length_filter_add_length_filter_lt p q xs hrest ⟨w, hw2, hwp, hwq⟩
      cases hp : p x <;> cases hq : q x
      case false.false =>
        simp [List.filter_cons, hp, hq]
        omega
      case false.true =>
        simp [List.filter_cons, hp, hq]
        omega
      case true.false =>
        simp [List.filter_cons, hp, hq]
        omega
      case true.true => exact absurd ⟨hp, hq⟩ hx

/-! ### Concrete fixtures used by the claims -/

/-- Non-empty table without the job_created_timestamp column. -/
def tC1 : Table := ⟨["job_name"], [[("job_name", Value.vStr "j1")]]⟩

/-- Older row of the compliance example: (org 1, cluster 9), 2024-01-01,
compliant false. -/
def rC2a : Row :=
  [("job_org_id", Value.vInt 1), ("job_cluster_id", Value.vInt 9),
   ("job_created_date", Value.vStr "2024-01-01"), ("is_compliant", Value.vBool false)]

/-- Newer row of the compliance example: (org 1, cluster 9), 2024-06-01,
compliant true. -/
def rC2b : Row :=
  [("job_org_id", Value.vInt 1), ("job_cluster_id", Value.vInt 9),
   ("job_created_date", Value.vStr "2024-06-01"), ("is_compliant", Value.vBool true)]

/-- The two-row compliance example table. -/
def tC2 : Table :=
  ⟨["job_org_id", "job_cluster_id", "job_created_date", "is_compliant"], [rC2a, rC2b]⟩

/-- A module usage row. -/
def mkMod (c m : String) (n : Int) : Row :=
  [("collection_name", Value.vStr c), ("module_name", Value.vStr m),
   ("module_invocation_count", Value.vInt n)]

/-- The module example table with rows (A,x,5), (A,x,3), (B,y,10). -/
def tC3 : Table :=
  ⟨["collection_name", "module_name", "module_invocation_count"],
   [mkMod "A" "x" 5, mkMod "A" "x" 3, mkMod "B" "y" 10]⟩

/-- Reference time of the job summary example. -/
def nowC4 : Int := 1000000000

/-- Job example table: rows timestamped a little before now, one day before
now, and forty days before now. -/
def tC4 : Table :=
  ⟨["job_created_timestamp", "job_status"],
   [[("job_created_timestamp", Value.vInt 999999000),
     ("job_status", Value.vStr "successful")],
    [("job_created_timestamp", Value.vInt (1000000000 - 86400)),
     ("job_status", Value.vStr "failed")],
    [("job_created_timestamp", Value.vInt (1000000000 - 3456000)),
     ("job_status", Value.vStr "successful")]]⟩

/-- A row whose module name is a JSON null. -/
def rC5 : Row :=
  [("collection_name", Value.vStr "A"), ("module_name", Value.vNull),
   ("module_invocation_count", Value.vInt 5)]

/-- Table containing only the null-module-name row. -/
def tC5 : Table :=
  ⟨["collection_name", "module_name", "module_invocation_count"], [rC5]⟩

/-- Table whose one row has a non-numeric invocation count. -/
def tC5b : Table :=
  ⟨["collection_name", "module_name", "module_invocation_count"],
   [[("collection_name", Value.vStr "A"), ("module_name", Value.vStr "copy"),
     ("module_invocation_count", Value.vStr "xyz")]]⟩

/-- A single-row table for the extractor write theorem. -/
def tC6 : Table := ⟨["job_id"], [[("job_id", Value.vInt 7)]]⟩

/-- Non-empty table lacking the module_name column. -/
def tC8 : Table :=
  ⟨["collection_name", "module_invocation_count"],
   [[("collection_name", Value.vStr "A"), ("module_invocation_count", Value.vInt 1)]]⟩

/-- Table whose one cluster row has a null compliance flag (normalized to
the string "none", which is neither "true" nor "false"). -/
def tC10 : Table :=
  ⟨["is_compliant", "job_created_date", "job_org_id", "job_cluster_id"],
   [[("is_compliant", Value.vNull), ("job_created_date", Value.vStr "2024-01-01"),
     ("job_org_id", Value.vInt 1), ("job_cluster_id", Value.vInt 2)]]⟩

/-! ### Claims -/

/-- C6: when an extractor run produces zero rows — whether from an empty
query result or from the error path of fetch_data_from_redshift — no
snapshot write happens and the previous file content is left unchanged; the
file is written exactly when at least one row was fetched. -/
theorem claim_C6 :
    (∀ (df : Table) (prev : Option String), df.isEmpty = true →
      extractorRun df prev = (prev, false))
    ∧ (∀ (e : String) (q : Except String (List Table)) (prev : Option String),
        extractorRun (fetch_data_from_redshift (Except.error e) q).df prev = (prev, false))
    ∧ (∀ (e : String) (prev : Option String),
        extractorRun (fetch_data_from_redshift (Except.ok ()) (Except.error e)).df prev
          = (prev, false))
    ∧ (∀ (df : Table) (prev : Option String), df.isEmpty = false →
        extractorRun df prev
          = (some (serializeSnapshot tableKeyStr descriptionStr df), true)) := by
  refine ⟨?_, ?_, ?_, ?_⟩
  · intro df prev h
    simp [extractorRun, h]
  · intro e q prev
    rfl
  · intro e prev
    rfl
  · intro df prev h
    simp [extractorRun, h]

/-- Witness for C6 at concrete inputs: an empty fetch leaves an existing
snapshot unchanged, and a one-row fetch writes. -/
theorem claim_C6_witness :
    extractorRun ⟨[], []⟩ (some "old") = (some "old", false) ∧
    extractorRun tC6 (some "old")
      = (some (serializeSnapshot tableKeyStr descriptionStr tC6), true) :=
  ⟨claim_C6.1 ⟨[], []⟩ (some "old") rfl, claim_C6.2.2.2 tC6 (some "old") rfl⟩

/-- C7: fetch_data_from_redshift returns an empty result on connection or
query failure instead of propagating the exception, and on every exit path
a connection that was opened is closed before returning. -/
theorem claim_C7 :
    (∀ (e : String) (q : Except String (List Table)),
      (fetch_data_from_redshift (Except.error e) q).df.rows = [] ∧
      (fetch_data_from_redshift (Except.error e) q).connOpened = false)
    ∧ (∀ e : String,
        (fetch_data_from_redshift (Except.ok ()) (Except.error e)).df.rows = [] ∧
        (fetch_data_from_redshift (Except.ok ()) (Except.error e)).connClosed = true)
    ∧ (∀ (c : Except String Unit) (q : Except String (List Table)),
        (fetch_data_from_redshift c q).connOpened = true →
        (fetch_data_from_redshift c q).connClosed = true) := by
  refine ⟨fun e q => ⟨rfl, rfl⟩, fun e => ⟨rfl, rfl⟩, ?_⟩
  intro c q h
  cases c with
  | error e => simp [fetch_data_from_redshift] at h
  | ok u =>
    cases q with
    | error e => rfl
    | ok chunks => rfl

/-- Witness for C7: the connection opened by a successful fetch is closed. -/
theorem claim_C7_witness :
    (fetch_data_from_redshift (Except.ok ()) (Except.ok [tC6])).connClosed = true :=
  claim_C7.2.2 (Except.ok ()) (Except.ok [tC6]) rfl

/-- C8: no report call mutates the loaded table (each works on a copy), and
in particular the module report on a table lacking module_name returns the
missing-column error string while leaving the table unchanged. -/
theorem claim_C8 :
    (∀ (g : Table) (n : Nat), (run_get_top_modules_used g n).2 = g)
    ∧ (∀ (g : Table) (nDays now : Int), (run_get_jobs_run_summary g nDays now).2 = g)
    ∧ (∀ g : Table, (run_get_cluster_compliance_summary g).2 = g)
    ∧ run_get_top_modules_used tC8 10 = (Except.ok moduleMissingMsg, tC8) :=
  ⟨fun _ _ => rfl, fun _ _ _ => rfl, fun _ => rfl, rfl⟩

/-- C9: calling any of the three report functions twice against the same
loaded-table state with the same parameters (the ambient clock included)
yields the same output string. -/
theorem claim_C9 :
    (∀ (g : Table) (n : Nat),
      (run_get_top_modules_used ((run_get_top_modules_used g n).2) n).1 =
        (run_get_top_modules_used g n).1)
    ∧ (∀ (g : Table) (nDays now : Int),
      (run_get_jobs_run_summary ((run_get_jobs_run_summary g nDays now).2) nDays now).1 =
        (run_get_jobs_run_summary g nDays now).1)
    ∧ (∀ g : Table,
      (run_get_cluster_compliance_summary ((run_get_cluster_compliance_summary g).2)).1 =
        (run_get_cluster_compliance_summary g).1) :=
  ⟨fun _ _ => rfl, fun _ _ _ => rfl, fun _ => rfl⟩

/-- C10: in the compliance summary the compliant count plus the
non-compliant count never exceeds the total unique-cluster count, and is
strictly smaller whenever some deduplicated row has a normalized
is_compliant value that is neither "true" nor "false". -/
theorem claim_C10 :
    (∀ t : Table,
      (complianceStats t).compliant + (complianceStats t).nonCompliant ≤
        (complianceStats t).total)
    ∧ (∀ t : Table,
        (∃ r ∈ uniqClusters t, isTrueRow r = false ∧ isFalseRow r = false) →
        (complianceStats t).compliant + (complianceStats t).nonCompliant <
          (complianceStats t).total) := by
  have hdisj : ∀ r : Row, ¬(isTrueRow r = true ∧ isFalseRow r = true) := by
    intro r hpair
    rcases hpair with ⟨h1, h2⟩
    have e1 : getCell r "is_compliant" = Value.vStr "true" := by
      simpa [isTrueRow] using h1
    have e2 : getCell r "is_compliant" = Value.vStr "false" := by
      simpa [isFalseRow] using h2
    rw [e1] at e2
    exact absurd e2 (by decide)
  constructor
  · intro t
    exact length_filter_add_length_filter_le isTrueRow isFalseRow
      (uniqClusters t) (fun x _ => hdisj x)
  · intro t hex
    exact length_filter_add_length_filter_lt isTrueRow isFalseRow
      (uniqClusters t) (fun x _ => hdisj x) hex

/-- C1 fails on the code: a report call can propagate an exception. On the
non-empty table tC1, which lacks the job_created_timestamp column,
get_jobs_run_summary raises a pandas KeyError (line 40 reads the column
unguarded) instead of returning an error string. -/
theorem claim_C1_counterexample :
    get_jobs_run_summary tC1 30 0 =
      Except.error "KeyError: \x27job_created_timestamp\x27" := rfl

/-- C1 amended: only the explicitly guarded requirements yield descriptive
error strings — the module report when any of collection_name, module_name
or module_invocation_count is missing (and that report never raises), and
the compliance report when is_compliant is missing; the unguarded column
accesses of the other reports can still raise KeyError. -/
theorem claim_C1_amended :
    (∀ (t : Table) (n : Nat), t.isEmpty = false →
      (t.cols.contains "collection_name" = false ∨
       t.cols.contains "module_name" = false ∨
       t.cols.contains "module_invocation_count" = false) →
      get_top_modules_used t n = Except.ok moduleMissingMsg)
    ∧ (∀ (t : Table) (n : Nat), ∃ s, get_top_modules_used t n = Except.ok s)
    ∧ (∀ t : Table, t.isEmpty = false → t.cols.contains "is_compliant" = false →
        get_cluster_compliance_summary t = Except.ok complianceMissingMsg) := by
  refine ⟨?_, ?_, ?_⟩
  · intro t n h1 h2
    have hcond : (!(t.cols.contains "collection_name")
        || !(t.cols.contains "module_name")
        || !(t.cols.contains "module_invocation_count")) = true := by
      rcases h2 with h | h | h <;> simp_all
    unfold get_top_modules_used
    rw [if_neg (by simp [h1]), if_pos hcond]
  · intro t n
    unfold get_top_modules_used
    split
    · exact ⟨_, rfl⟩
    split
    · exact ⟨_, rfl⟩
    dsimp only
    split
    · exact ⟨_, rfl⟩
    · exact ⟨_, rfl⟩
  · intro t h1 h2
    unfold get_cluster_compliance_summary
    rw [if_neg (by simp [h1]), if_pos (by simp_all)]

/-- Witness for C1 amended: on the non-empty table tC1 both guarded checks
return their error strings. -/
theorem claim_C1_amended_witness :
    get_top_modules_used tC1 10 = Except.ok moduleMissingMsg ∧
    get_cluster_compliance_summary tC1 = Except.ok complianceMissingMsg :=
  ⟨claim_C1_amended.1 tC1 10 rfl (Or.inr (Or.inl rfl)),
   claim_C1_amended.2.2 tC1 rfl rfl⟩

/-- C2: the compliance report deduplicates to the most recent row per
(job_org_id, job_cluster_id) pair after the descending date sort — the kept
representative of a pair is at least as recent as every input row sharing
that pair — and on the two-row example table the summary reports one total
cluster, one compliant cluster, and a 100.00% compliance rate. -/
theorem claim_C2 :
    (∀ (rows : List Row) (r r' : Row), r ∈ complianceDedup rows → r' ∈ rows →
      clusterKey r = clusterKey r' → dateDescLe r r' = true)
    ∧ get_cluster_compliance_summary tC2 = Except.ok
        "## Cluster Compliance Summary (Last Year):\n\n- Total Unique Clusters Monitored: 1\n- Compliant Clusters: 1\n- Non-Compliant Clusters: 0\n- Compliance Rate: 100.00%\n" :=
  ⟨fun rows r r' hr hr' hk => complianceDedup_best rows r r' hr hr' hk, rfl⟩

/-- Witness for C2: on the example rows the kept row rC2b (dated
2024-06-01) is at least as recent as the discarded rC2a (2024-01-01). -/
theorem claim_C2_witness : dateDescLe rC2b rC2a = true :=
  claim_C2.1 [rC2a, rC2b] rC2b rC2a (by decide) (by decide) rfl

/-- C3: the module report emits at most top_n groups, in descending order
of summed invocation count, and on the example rows (A,x,5), (A,x,3),
(B,y,10) with top_n = 2 the ranked result is [(B,y,10), (A,x,8)]. -/
theorem claim_C3 :
    (∀ (t : Table) (n : Nat), (topModulesOf t n).length ≤ n ∧
      (topModulesOf t n).Pairwise (fun a b => countDescLe a b = true))
    ∧ topModulesOf tC3 2 = [("B", "y", (10 : Int)), ("A", "x", 8)] := by
  constructor
  · intro t n
    constructor
    · exact List.length_take_le n _
    · exact List.Pairwise.sublist (List.take_sublist n _)
        (pairwise_sortOn countDescLe countDescLe_total countDescLe_trans _)
  · rfl

/-- C4 helper: the rows the job summary counts are exactly the input rows
whose job_created_timestamp parses and lies inside the window. -/
theorem recentJobs_map_fst (nDays now : Int) :
    ∀ rows : List Row,
      (recentJobs rows nDays now).map Prod.fst = rows.filter (fun r =>
        match (getCell r "job_created_timestamp").parseTimestamp? with
        | some ts => decide (jobsWindowStart nDays now ≤ ts) && decide (ts ≤ now)
        | none => false)
  | [] => rfl
  | r :: rs => by
    have ih := recentJobs_map_fst nDays now rs
    simp only [recentJobs] at ih ⊢
    cases hp : (getCell r "job_created_timestamp").parseTimestamp? with
    | none => simp [List.filterMap_cons, List.filter_cons, hp, ih]
    | some ts =>
      cases hc : (decide (jobsWindowStart nDays now ≤ ts) && decide (ts ≤ now)) with
      | false => simp [List.filterMap_cons, List.filter_cons, hp, hc, ih]
      | true => simp [List.filterMap_cons, List.filter_cons, hp, hc, ih]

/-- C4: the job summary drops rows with unparseable timestamps, keeps
exactly the rows with timestamp in the inclusive window [now - n_days, now],
returns the descriptive no-data strings on an empty table or an empty
window, and counts exactly 2 jobs on the example table (rows just before
now, one day old, and forty days old) with n_days = 30. -/
theorem claim_C4 :
    (∀ (rows : List Row) (nDays now : Int),
      (recentJobs rows nDays now).map Prod.fst = rows.filter (fun r =>
        match (getCell r "job_created_timestamp").parseTimestamp? with
        | some ts => decide (jobsWindowStart nDays now ≤ ts) && decide (ts ≤ now)
        | none => false))
    ∧ (∀ (t : Table) (nDays now : Int), t.isEmpty = true →
        get_jobs_run_summary t nDays now =
          Except.ok "No combined telemetry data available to analyze for jobs.")
    ∧ (∀ (t : Table) (nDays now : Int), t.isEmpty = false →
        t.cols.contains "job_created_timestamp" = true →
        recentJobs t.rows nDays now = [] →
        get_jobs_run_summary t nDays now =
          Except.ok s!"No job data found in the last {nDays} days.")
    ∧ (recentJobs tC4.rows 30 nowC4).length = 2 := by
  refine ⟨fun rows nDays now => recentJobs_map_fst nDays now rows, ?_, ?_, rfl⟩
  · intro t nDays now h
    unfold get_jobs_run_summary
    rw [if_pos h]
  · intro t nDays now h1 h2 h3
    unfold get_jobs_run_summary
    rw [if_neg (by simp [h1]), if_neg (by simp_all)]
    simp [h3]

/-- Witness for C4: the empty table and an empty window both yield the
descriptive no-data strings. -/
theorem claim_C4_witness :
    get_jobs_run_summary ⟨[], []⟩ 30 0 =
      Except.ok "No combined telemetry data available to analyze for jobs." ∧
    get_jobs_run_summary tC4 0 0 =
      Except.ok "No job data found in the last 0 days." :=
  ⟨claim_C4.2.1 ⟨[], []⟩ 30 0 rfl, claim_C4.2.2.1 tC4 0 0 rfl rfl rfl⟩

/-- C5 fails on the code: a row whose module name is a JSON null is not
excluded — astype(str) renders None as the string "None", which passes the
line-90 filter, so the row contributes a ranked group. -/
theorem claim_C5_counterexample :
    topModulesOf tC5 10 = [("A", "None", (5 : Int))] ∧
    getCell rC5 "module_name" = Value.vNull :=
  ⟨rfl, rfl⟩

/-- C5 amended: non-numeric or absent invocation counts are coerced to 0,
and rows whose stringified module name is the empty string or the "nan"
placeholder are excluded from every ranked group; a null module name
however survives as the string "None". -/
theorem claim_C5_amended :
    (∀ (t : Table) (n : Nat) (g : String × String × Int), g ∈ topModulesOf t n →
      g.2.1 ≠ "" ∧ g.2.1 ≠ "nan")
    ∧ topModulesOf tC5b 10 = [("A", "copy", (0 : Int))] := by
  constructor
  · intro t n g hg
    have h1 : g ∈ sortOn countDescLe (groupSums (cleanModules t.rows)) :=
      List.mem_of_mem_take hg
    have h2 : g ∈ groupSums (cleanModules t.rows) :=
      (sortOn_perm countDescLe _).mem_iff.mp h1
    rcases List.mem_map.mp h2 with ⟨k, hk, hgk⟩
    have h3 : k ∈ (List.map moduleKey (cleanModules t.rows)).dedup :=
      (sortOn_perm keyLe _).mem_iff.mp hk
    have h4 : k ∈ List.map moduleKey (cleanModules t.rows) := List.mem_dedup.mp h3
    rcases List.mem_map.mp h4 with ⟨r, hr, hkr⟩
    have h5 := List.of_mem_filter hr
    simp only [Bool.and_eq_true, Bool.not_eq_true', beq_eq_false_iff_ne] at h5
    rw [← hgk]
    show k.2 ≠ "" ∧ k.2 ≠ "nan"
    rw [← hkr]
    exact h5
  · rfl

/-- Witness for C5 amended: the group kept on the tC5 table has a module
name that is neither empty nor the "nan" placeholder. -/
theorem claim_C5_amended_witness :
    ("A", "None", (5 : Int)).2.1 ≠ "" ∧ ("A", "None", (5 : Int)).2.1 ≠ "nan" :=
  claim_C5_amended.1 tC5 10 ("A", "None", (5 : Int)) (by decide)

/-- Witness for C10: the table whose one cluster row has a null compliance
flag has counts 0 + 0 strictly below total 1. -/
theorem claim_C10_witness :
    (complianceStats tC10).compliant + (complianceStats tC10).nonCompliant <
      (complianceStats tC10).total :=
  claim_C10.2 tC10 (by decide)

end Telesense
